import Mathlib

/-!
Shallow embedding of the Lockplane evaluation runner
(`tests/scenarios/run-evals.py`) and proofs about its contract.

The runner discovers a scenario directory, loads a YAML declaration,
runs a setup script and an optional validation script through
`run_script`, writes a transcript file `latest-run.txt`, and aggregates
results into a process exit code.

External effects are modelled explicitly:
- the behaviour of a spawned subprocess is an oracle value `ProcResult`
  (normal completion with an exit code and captured stdout/stderr,
  a timeout, or a spawn-time exception);
- the scenario directory's file layout is a `ScenarioFS` record of
  which of the four candidate scripts exist;
- wall-clock readings are carried in a `RunEnv` record (`duration` is
  the value of `time.time() - start_time` at the single terminal
  branch that computes it, `durationStr` its `"%.1f"` rendering, and
  `startedAt` the `time.strftime` banner text);
- writing `latest-run.txt` is modelled by returning the path and the
  exact text written (`Path.write_text` truncates, so each run
  overwrites the previous transcript by construction).
-/

/-- Behaviour of one spawned subprocess, as observed by `run_script`:
either `subprocess.run` completes with an exit code and captured
stdout/stderr, or it raises `TimeoutExpired`, or some other exception
escapes the spawn (modelled with the exception's string rendering). -/
inductive ProcResult where
  | completed (exitCode : Int) (stdout : String) (stderr : String)
  | timedOut
  | spawnError (msg : String)
deriving DecidableEq

/-- Embedding of `run_script` (run-evals.py lines 89-119): if the script
path does not exist, return immediately without spawning; otherwise the
pair is (returncode == 0, stdout + stderr) on completion, or the fixed
timeout / exception messages on the two except branches. -/
def run_script (scriptPath : String) (scriptExists : Bool) (timeoutSecs : Nat)
    (proc : ProcResult) : Bool × String :=
  if scriptExists = false then
    (false, "Script not found: " ++ scriptPath)
  else
    match proc with
    | ProcResult.completed code out err => (code == 0, out ++ err)
    | ProcResult.timedOut => (false, "Timeout after " ++ toString timeoutSecs ++ " seconds")
    | ProcResult.spawnError e => (false, "Error running script: " ++ e)

/-- Embedding of the `ScenarioConfig` dataclass (lines 33-39):
`timeout` defaults to 300 and `tags` defaults to `None`. -/
structure ScenarioConfig where
  name : String
  description : String
  timeout : Nat := 300
  tags : Option (List String) := none
deriving DecidableEq

/-- Fields a parsed YAML mapping may provide for `ScenarioConfig`.
`extra` lists mapping keys that are not dataclass fields (these make
`cls(**data)` raise a `TypeError`). -/
structure YamlFields where
  name : Option String
  description : Option String
  timeout : Option Nat
  tags : Option (Option (List String))
  extra : List String
deriving DecidableEq

/-- Abstract error taxonomy for the descriptor loader (the spec's
`ConfigError`): in the source these surface as an uncaught
`yaml.YAMLError` or `TypeError` from `ScenarioConfig.from_yaml`. -/
inductive ConfigError where
  | unparseable
  | missingField (field : String)
  | unexpectedField (field : String)
deriving DecidableEq

/-- Embedding of `ScenarioConfig.from_yaml` (lines 41-46). The input is
`none` when `yaml.safe_load` fails or does not produce a mapping;
otherwise `cls(**data)` raises `TypeError` for an unexpected key or a
missing required field (`name`, `description`), and fills the defaults
`timeout = 300`, `tags = None` when those keys are absent. -/
def ScenarioConfig.from_yaml (doc : Option YamlFields) : Except ConfigError ScenarioConfig :=
  match doc with
  | none => Except.error ConfigError.unparseable
  | some d =>
    match d.extra with
    | k :: _ => Except.error (ConfigError.unexpectedField k)
    | [] =>
      match d.name, d.description with
      | none, _ => Except.error (ConfigError.missingField "name")
      | some _, none => Except.error (ConfigError.missingField "description")
      | some n, some ds =>
        Except.ok { name := n, description := ds, timeout := d.timeout.getD 300,
                    tags := d.tags.getD none }

/-- Embedding of the `ScenarioResult` dataclass (lines 49-58), with
`duration_seconds` as a rational wall-clock reading. -/
structure ScenarioResult where
  name : String
  description : String
  passed : Bool
  duration_seconds : Rat
  error_message : Option String := none
  validation_output : String := ""
  tags : Option (List String) := none
deriving DecidableEq

/-- Which of the four candidate script files exist in a scenario
directory. -/
structure ScenarioFS where
  scenarioPy : Bool
  scenarioSh : Bool
  validatePy : Bool
  validateSh : Bool
deriving DecidableEq

/-- Setup script chosen by lines 127-129: `scenario.py` if it exists,
else fall back to `scenario.sh`. -/
def setupScriptPath (dir : String) (fs : ScenarioFS) : String :=
  if fs.scenarioPy then dir ++ "/scenario.py" else dir ++ "/scenario.sh"

/-- Whether the chosen setup script exists (`scenario.py` exists, or the
fallback `scenario.sh` does). -/
def setupScriptExists (fs : ScenarioFS) : Bool :=
  fs.scenarioPy || fs.scenarioSh

/-- Validation script chosen by lines 132-134: `validate.py` if it
exists, else fall back to `validate.sh`. -/
def validateScriptPath (dir : String) (fs : ScenarioFS) : String :=
  if fs.validatePy then dir ++ "/validate.py" else dir ++ "/validate.sh"

/-- Whether the chosen validation script exists. -/
def validateScriptExists (fs : ScenarioFS) : Bool :=
  fs.validatePy || fs.validateSh

/-- Environment of one `run_scenario` call: the two process oracles,
the `time.strftime` banner and the wall-clock duration read at the one
terminal branch that is taken (`durationStr` is its `"%.1f"` text). -/
structure RunEnv where
  startedAt : String
  duration : Rat
  durationStr : String
  setupProc : ProcResult
  validateProc : ProcResult
deriving DecidableEq

/-- Python's `"\n".join`: interleave a newline between list elements. -/
def joinLines : List String → String
  | [] => ""
  | [x] => x
  | x :: y :: xs => x ++ "\n" ++ joinLines (y :: xs)

/-- Everything `run_scenario` produces: the returned `ScenarioResult`,
the path and full text written to `latest-run.txt`, whether the
validation script was handed to `run_script`, and with which timeout. -/
structure RunOutcome where
  result : ScenarioResult
  transcriptPath : String
  transcript : String
  validatorInvoked : Bool
  usedValidatorTimeout : Option Nat
deriving DecidableEq

/-- Embedding of `run_scenario` (lines 122-216): run the chosen setup
script with the configured timeout; on failure return a Failed result
with `error_message` and the default empty `validation_output`; on
success run the chosen validator (fixed 60-second timeout) when one
exists, else pass with `validation_output = "No validation script
found"`. Every branch writes the transcript to `latest-run.txt`. -/
def run_scenario (dir : String) (config : ScenarioConfig) (fs : ScenarioFS)
    (env : RunEnv) : RunOutcome :=
  let setup := run_script (setupScriptPath dir fs) (setupScriptExists fs)
      config.timeout env.setupProc
  let header : List String :=
    ["=== Scenario: " ++ config.name ++ " ===",
     "Description: " ++ config.description,
     "Started at: " ++ env.startedAt,
     "",
     "--- Scenario Execution ---",
     setup.2,
     ""]
  if setup.1 = false then
    { result :=
        { name := config.name, description := config.description, passed := false,
          duration_seconds := env.duration,
          error_message := some ("Scenario execution failed: " ++ setup.2),
          validation_output := "",
          tags := config.tags },
      transcriptPath := dir ++ "/latest-run.txt",
      transcript := joinLines (header ++
        ["Status: FAILED",
         "Duration: " ++ env.durationStr ++ "s",
         "Error: Scenario execution failed"]),
      validatorInvoked := false,
      usedValidatorTimeout := none }
  else if validateScriptExists fs then
    let v := run_script (validateScriptPath dir fs) (validateScriptExists fs) 60
        env.validateProc
    { result :=
        { name := config.name, description := config.description, passed := v.1,
          duration_seconds := env.duration,
          error_message := none,
          validation_output := v.2,
          tags := config.tags },
      transcriptPath := dir ++ "/latest-run.txt",
      transcript := joinLines (header ++
        ["--- Validation ---", v.2, "",
         "Status: " ++ (if v.1 then "PASSED" else "FAILED"),
         "Duration: " ++ env.durationStr ++ "s"]),
      validatorInvoked := true,
      usedValidatorTimeout := some 60 }
  else
    { result :=
        { name := config.name, description := config.description, passed := true,
          duration_seconds := env.duration,
          error_message := none,
          validation_output := "No validation script found",
          tags := config.tags },
      transcriptPath := dir ++ "/latest-run.txt",
      transcript := joinLines (header ++
        ["Status: PASSED (no validation)",
         "Duration: " ++ env.durationStr ++ "s"]),
      validatorInvoked := false,
      usedValidatorTimeout := none }

/-- One entry of the scenarios base directory, as `find_scenarios`
inspects it: its name, whether it is a directory, and whether it
contains a `scenario.yaml` declaration file (always false for a
non-directory entry). -/
structure DirEntry where
  name : String
  isDir : Bool
  hasScenarioYaml : Bool
deriving DecidableEq

/-- The scenarios base directory (`--scenarios-dir`): its path and its
listing. -/
structure ScenariosDir where
  path : String
  entries : List DirEntry
deriving DecidableEq

/-- Fatal discovery errors of `find_scenarios`, each of which reaches
`sys.exit(1)`: the named scenario directory does not exist (the message
reports the searched base directory and the available scenario names),
or it exists but has no `scenario.yaml` (the message reports the
expected file path). -/
inductive FindError where
  | notFound (searchedDir : String) (available : List String)
  | missingYaml (expectedPath : String)
deriving DecidableEq

/-- Names collected by lines 69-72: entries of the base directory that
are directories and contain a `scenario.yaml` (printed sorted). -/
def availableScenarios (d : ScenariosDir) : List String :=
  (d.entries.filter (fun e => e.isDir && e.hasScenarioYaml)).map (fun e => e.name)

/-- Embedding of `find_scenarios` (lines 61-86): resolve the requested
name to a single scenario directory, or exit with a discovery error. -/
def find_scenarios (d : ScenariosDir) (specific : String) :
    Except FindError (List String) :=
  match d.entries.find? (fun e => e.name == specific) with
  | none => Except.error (FindError.notFound d.path (availableScenarios d))
  | some e =>
    if e.hasScenarioYaml = false then
      Except.error (FindError.missingYaml (d.path ++ "/" ++ specific ++ "/scenario.yaml"))
    else
      Except.ok [d.path ++ "/" ++ specific]

/-- The two accepted values of the `--format` option (line 270). -/
inductive OutputFormat where
  | table
  | json
deriving DecidableEq

/-- Exit-code computation at the end of `main` (lines 311-319): both
report formats only print to stdout, then `sys.exit(1)` fires iff some
result did not pass (falling off `main` otherwise exits 0). -/
def mainExitCode (fmt : OutputFormat) (results : List ScenarioResult) : Nat :=
  if results.any (fun r => !r.passed) then 1 else 0

/-- How a modelled `main` invocation ends: a discovery error
(`sys.exit(1)` before any scenario runs), an uncaught loader exception
(non-zero exit, no result produced), or normal completion with the run
outcomes and the aggregate exit code. -/
inductive MainResult where
  | discoveryExit (e : FindError)
  | configCrash (e : ConfigError)
  | completed (outs : List RunOutcome) (exitCode : Nat)
deriving DecidableEq

/-- Process exit code of a modelled `main` invocation; Python exits 1
on `sys.exit(1)` and on an uncaught exception. -/
def MainResult.exitCode : MainResult → Nat
  | MainResult.discoveryExit _ => 1
  | MainResult.configCrash _ => 1
  | MainResult.completed _ ec => ec

/-- Scenarios actually executed by a modelled `main` invocation. -/
def MainResult.scenariosRun : MainResult → List RunOutcome
  | MainResult.completed outs _ => outs
  | _ => []

/-- Embedding of `main` (lines 259-319) for one requested scenario:
locate it, load its declaration, run it, report, and exit. The
single scenario directory's YAML document, file layout, and process
behaviours are the `doc`, `fs`, `env` oracles. -/
def mainModel (d : ScenariosDir) (specific : String) (doc : Option YamlFields)
    (fs : ScenarioFS) (env : RunEnv) (fmt : OutputFormat) : MainResult :=
  match find_scenarios d specific with
  | Except.error e => MainResult.discoveryExit e
  | Except.ok paths =>
    match ScenarioConfig.from_yaml doc with
    | Except.error e => MainResult.configCrash e
    | Except.ok cfg =>
      let outs := paths.map (fun p => run_scenario p cfg fs env)
      MainResult.completed outs (mainExitCode fmt (outs.map (fun o => o.result)))

/-- String `p` occurs as a contiguous substring of `s`. -/
def substrOccurs (p s : String) : Prop :=
  ∃ a b, s = a ++ p ++ b

/-- Reading of "includes the output in truncated form": some proper
prefix of the output occurs in the message, but the complete output
does not (truncation cuts information). -/
def includesOnlyTruncated (msg out : String) : Prop :=
  (∃ k, k < out.length ∧ substrOccurs (out.take k) msg) ∧ ¬ substrOccurs out msg

/-- A string of positive length is not the empty string. -/
theorem string_ne_empty_of_length_pos (s : String) (h : 0 < s.length) : s ≠ "" := by
  intro he
  rw [he] at h
  simp at h

/-- A nonempty string has positive length. -/
theorem string_length_pos_of_ne_empty (s : String) (hs : s ≠ "") : 0 < s.length := by
  rcases Nat.eq_zero_or_pos s.length with h0 | h1
  · exfalso
    apply hs
    cases s with
    | mk data =>
      simp at h0
      simp [h0]
  · exact h1

/-- Appending on the right preserves non-emptiness. -/
theorem append_ne_empty_left (s t : String) (hs : s ≠ "") : s ++ t ≠ "" := by
  apply string_ne_empty_of_length_pos
  rw [String.length_append]
  have := string_length_pos_of_ne_empty s hs
  omega

/-- Joining a list whose first line is nonempty gives a nonempty string. -/
theorem joinLines_ne_empty (x : String) (xs : List String) (hx : x ≠ "") :
    joinLines (x :: xs) ≠ "" := by
  cases xs with
  | nil => simpa [joinLines] using hx
  | cons y ys =>
    show x ++ "\n" ++ joinLines (y :: ys) ≠ ""
    exact append_ne_empty_left _ _ (append_ne_empty_left _ _ hx)

/-- The transcript header's first banner line is never empty. -/
theorem scenario_banner_ne_empty (n : String) :
    "=== Scenario: " ++ n ++ " ===" ≠ "" :=
  append_ne_empty_left _ _ (append_ne_empty_left _ _ (by decide))

/-- Branch equation for `run_scenario`: the setup-failure branch. -/
theorem run_scenario_fail_eq (dir : String) (cfg : ScenarioConfig)
    (fs : ScenarioFS) (env : RunEnv)
    (h : (run_script (setupScriptPath dir fs) (setupScriptExists fs)
        cfg.timeout env.setupProc).1 = false) :
    run_scenario dir cfg fs env =
      { result :=
          { name := cfg.name, description := cfg.description, passed := false,
            duration_seconds := env.duration,
            error_message := some ("Scenario execution failed: " ++
              (run_script (setupScriptPath dir fs) (setupScriptExists fs)
                cfg.timeout env.setupProc).2),
            validation_output := "",
            tags := cfg.tags },
        transcriptPath := dir ++ "/latest-run.txt",
        transcript := joinLines
          (["=== Scenario: " ++ cfg.name ++ " ===",
            "Description: " ++ cfg.description,
            "Started at: " ++ env.startedAt,
            "",
            "--- Scenario Execution ---",
            (run_script (setupScriptPath dir fs) (setupScriptExists fs)
              cfg.timeout env.setupProc).2,
            ""] ++
           ["Status: FAILED",
            "Duration: " ++ env.durationStr ++ "s",
            "Error: Scenario execution failed"]),
        validatorInvoked := false,
        usedValidatorTimeout := none } := by
  simp only [run_scenario]
  rw [h]
  simp

/-- Branch equation for `run_scenario`: setup succeeded and a
validation script exists. -/
theorem run_scenario_validate_eq (dir : String) (cfg : ScenarioConfig)
    (fs : ScenarioFS) (env : RunEnv)
    (h : (run_script (setupScriptPath dir fs) (setupScriptExists fs)
        cfg.timeout env.setupProc).1 = true)
    (hv : validateScriptExists fs = true) :
    run_scenario dir cfg fs env =
      { result :=
          { name := cfg.name, description := cfg.description,
            passed := (run_script (validateScriptPath dir fs) (validateScriptExists fs)
              60 env.validateProc).1,
            duration_seconds := env.duration,
            error_message := none,
            validation_output := (run_script (validateScriptPath dir fs)
              (validateScriptExists fs) 60 env.validateProc).2,
            tags := cfg.tags },
        transcriptPath := dir ++ "/latest-run.txt",
        transcript := joinLines
          (["=== Scenario: " ++ cfg.name ++ " ===",
            "Description: " ++ cfg.description,
            "Started at: " ++ env.startedAt,
            "",
            "--- Scenario Execution ---",
            (run_script (setupScriptPath dir fs) (setupScriptExists fs)
              cfg.timeout env.setupProc).2,
            ""] ++
           ["--- Validation ---",
            (run_script (validateScriptPath dir fs) (validateScriptExists fs)
              60 env.validateProc).2,
            "",
            "Status: " ++ (if (run_script (validateScriptPath dir fs)
              (validateScriptExists fs) 60 env.validateProc).1 then "PASSED" else "FAILED"),
            "Duration: " ++ env.durationStr ++ "s"]),
        validatorInvoked := true,
        usedValidatorTimeout := some 60 } := by
  simp only [run_scenario]
  rw [h, hv]
  simp

/-- Branch equation for `run_scenario`: setup succeeded and no
validation script exists. -/
theorem run_scenario_novalidate_eq (dir : String) (cfg : ScenarioConfig)
    (fs : ScenarioFS) (env : RunEnv)
    (h : (run_script (setupScriptPath dir fs) (setupScriptExists fs)
        cfg.timeout env.setupProc).1 = true)
    (hv : validateScriptExists fs = false) :
    run_scenario dir cfg fs env =
      { result :=
          { name := cfg.name, description := cfg.description, passed := true,
            duration_seconds := env.duration,
            error_message := none,
            validation_output := "No validation script found",
            tags := cfg.tags },
        transcriptPath := dir ++ "/latest-run.txt",
        transcript := joinLines
          (["=== Scenario: " ++ cfg.name ++ " ===",
            "Description: " ++ cfg.description,
            "Started at: " ++ env.startedAt,
            "",
            "--- Scenario Execution ---",
            (run_script (setupScriptPath dir fs) (setupScriptExists fs)
              cfg.timeout env.setupProc).2,
            ""] ++
           ["Status: PASSED (no validation)",
            "Duration: " ++ env.durationStr ++ "s"]),
        validatorInvoked := false,
        usedValidatorTimeout := none } := by
  simp only [run_scenario]
  rw [h, hv]
  simp

/-- Every branch of `run_scenario` writes a nonempty transcript to the
fixed per-directory path `latest-run.txt`. -/
theorem run_scenario_transcript_facts (dir : String) (cfg : ScenarioConfig)
    (fs : ScenarioFS) (env : RunEnv) :
    (run_scenario dir cfg fs env).transcriptPath = dir ++ "/latest-run.txt" ∧
    (run_scenario dir cfg fs env).transcript ≠ "" := by
  by_cases h : (run_script (setupScriptPath dir fs) (setupScriptExists fs)
      cfg.timeout env.setupProc).1 = false
  · rw [run_scenario_fail_eq dir cfg fs env h]
    exact ⟨rfl, joinLines_ne_empty _ _ (scenario_banner_ne_empty cfg.name)⟩
  · have h1 : (run_script (setupScriptPath dir fs) (setupScriptExists fs)
        cfg.timeout env.setupProc).1 = true := by
      revert h
      cases (run_script (setupScriptPath dir fs) (setupScriptExists fs)
        cfg.timeout env.setupProc).1 <;> simp
    by_cases hv : validateScriptExists fs = true
    · rw [run_scenario_validate_eq dir cfg fs env h1 hv]
      exact ⟨rfl, joinLines_ne_empty _ _ (scenario_banner_ne_empty cfg.name)⟩
    · have hv' : validateScriptExists fs = false := by
        revert hv
        cases validateScriptExists fs <;> simp
      rw [run_scenario_novalidate_eq dir cfg fs env h1 hv']
      exact ⟨rfl, joinLines_ne_empty _ _ (scenario_banner_ne_empty cfg.name)⟩

/-- The success flag of `run_script` does not depend on the timeout
argument (the timeout only affects the failure message text). -/
theorem run_script_fst_timeout_irrelevant (p : String) (ex : Bool) (t t' : Nat)
    (proc : ProcResult) :
    (run_script p ex t proc).1 = (run_script p ex t' proc).1 := by
  unfold run_script
  cases ex <;> cases proc <;> simp

/-- Claim C1: for every scenario run in which the setup phase does not
succeed, the returned `ScenarioResult` has `passed = false` and an empty
`validation_output`, and the validation script is never invoked,
regardless of whether a validator file exists. -/
theorem C1_setup_failure_blocks_validation (dir : String) (cfg : ScenarioConfig)
    (fs : ScenarioFS) (env : RunEnv)
    (h : (run_script (setupScriptPath dir fs) (setupScriptExists fs)
        cfg.timeout env.setupProc).1 = false) :
    (run_scenario dir cfg fs env).result.passed = false ∧
    (run_scenario dir cfg fs env).result.validation_output = "" ∧
    (run_scenario dir cfg fs env).validatorInvoked = false := by
  rw [run_scenario_fail_eq dir cfg fs env h]
  exact ⟨rfl, rfl, rfl⟩

/-- Witness for C1: a concrete run whose setup script exits 1 while a
validator file is present. -/
theorem C1_witness :
    (run_scenario "dir" { name := "s", description := "d", timeout := 5 }
        ⟨true, false, true, false⟩
        ⟨"t", 0, "0.0", ProcResult.completed 1 "boom" "",
          ProcResult.completed 0 "ok" ""⟩).result.passed = false ∧
    (run_scenario "dir" { name := "s", description := "d", timeout := 5 }
        ⟨true, false, true, false⟩
        ⟨"t", 0, "0.0", ProcResult.completed 1 "boom" "",
          ProcResult.completed 0 "ok" ""⟩).result.validation_output = "" ∧
    (run_scenario "dir" { name := "s", description := "d", timeout := 5 }
        ⟨true, false, true, false⟩
        ⟨"t", 0, "0.0", ProcResult.completed 1 "boom" "",
          ProcResult.completed 0 "ok" ""⟩).validatorInvoked = false :=
  C1_setup_failure_blocks_validation "dir" _ _ _ (by decide)

/-- Claim C2: for every scenario run whose setup succeeds and whose
directory contains neither validator candidate, the result passes with
`validation_output = "No validation script found"`. -/
theorem C2_no_validator_is_a_pass (dir : String) (cfg : ScenarioConfig)
    (fs : ScenarioFS) (env : RunEnv)
    (h : (run_script (setupScriptPath dir fs) (setupScriptExists fs)
        cfg.timeout env.setupProc).1 = true)
    (hpy : fs.validatePy = false) (hsh : fs.validateSh = false) :
    (run_scenario dir cfg fs env).result.passed = true ∧
    (run_scenario dir cfg fs env).result.validation_output
      = "No validation script found" := by
  have hv : validateScriptExists fs = false := by
    simp [validateScriptExists, hpy, hsh]
  rw [run_scenario_novalidate_eq dir cfg fs env h hv]
  exact ⟨rfl, rfl⟩

/-- Witness for C2: a concrete run whose setup exits 0 with no
validator candidate present. -/
theorem C2_witness :
    (run_scenario "dir" { name := "ok", description := "d", timeout := 5 }
        ⟨true, false, false, false⟩
        ⟨"t", 0, "0.0", ProcResult.completed 0 "done" "",
          ProcResult.timedOut⟩).result.passed = true ∧
    (run_scenario "dir" { name := "ok", description := "d", timeout := 5 }
        ⟨true, false, false, false⟩
        ⟨"t", 0, "0.0", ProcResult.completed 0 "done" "",
          ProcResult.timedOut⟩).result.validation_output
      = "No validation script found" :=
  C2_no_validator_is_a_pass "dir" _ _ _ (by decide) (by decide) (by decide)

/-- Claim C5: on every terminal transition of a scenario run the
transcript is written to the fixed name `latest-run.txt` in the
scenario directory (overwriting any prior transcript, since the write
truncates), and it is non-empty regardless of outcome. -/
theorem C5_transcript_always_written_nonempty (dir : String)
    (cfg : ScenarioConfig) (fs : ScenarioFS) (env : RunEnv) :
    (run_scenario dir cfg fs env).transcriptPath = dir ++ "/latest-run.txt" ∧
    (run_scenario dir cfg fs env).transcript ≠ "" :=
  run_scenario_transcript_facts dir cfg fs env

/-- Claim C7: when setup succeeds and a validator exists, the validator
runs with the fixed 60-second timeout — whatever the scenario's own
configured timeout is — and `passed` equals the validator's success
flag. -/
theorem C7_validator_runs_with_fixed_timeout (dir : String)
    (cfg : ScenarioConfig) (fs : ScenarioFS) (env : RunEnv) (t : Nat)
    (h : (run_script (setupScriptPath dir fs) (setupScriptExists fs)
        cfg.timeout env.setupProc).1 = true)
    (hv : validateScriptExists fs = true) :
    (run_scenario dir cfg fs env).validatorInvoked = true ∧
    (run_scenario dir cfg fs env).usedValidatorTimeout = some 60 ∧
    (run_scenario dir
        { name := cfg.name, description := cfg.description, timeout := t,
          tags := cfg.tags } fs env).usedValidatorTimeout = some 60 ∧
    (run_scenario dir cfg fs env).result.passed
      = (run_script (validateScriptPath dir fs) (validateScriptExists fs)
          60 env.validateProc).1 := by
  have h' : (run_script (setupScriptPath dir fs) (setupScriptExists fs)
      t env.setupProc).1 = true := by
    rw [run_script_fst_timeout_irrelevant (setupScriptPath dir fs)
      (setupScriptExists fs) t cfg.timeout env.setupProc]
    exact h
  refine ⟨?_, ?_, ?_, ?_⟩
  · rw [run_scenario_validate_eq dir cfg fs env h hv]
  · rw [run_scenario_validate_eq dir cfg fs env h hv]
  · rw [run_scenario_validate_eq dir
      { name := cfg.name, description := cfg.description, timeout := t,
        tags := cfg.tags } fs env h' hv]
  · rw [run_scenario_validate_eq dir cfg fs env h hv]

/-- Witness for C7: a concrete run with a 300-second scenario timeout
whose validator exits 1; the validator still runs with timeout 60 and
the run fails. -/
theorem C7_witness :
    (run_scenario "dir" { name := "s", description := "d", timeout := 300 }
        ⟨true, false, true, false⟩
        ⟨"t", 0, "0.0", ProcResult.completed 0 "done" "",
          ProcResult.completed 1 "bad" ""⟩).validatorInvoked = true ∧
    (run_scenario "dir" { name := "s", description := "d", timeout := 300 }
        ⟨true, false, true, false⟩
        ⟨"t", 0, "0.0", ProcResult.completed 0 "done" "",
          ProcResult.completed 1 "bad" ""⟩).usedValidatorTimeout = some 60 ∧
    (run_scenario "dir" { name := "s", description := "d", timeout := 7, tags := none }
        ⟨true, false, true, false⟩
        ⟨"t", 0, "0.0", ProcResult.completed 0 "done" "",
          ProcResult.completed 1 "bad" ""⟩).usedValidatorTimeout = some 60 ∧
    (run_scenario "dir" { name := "s", description := "d", timeout := 300 }
        ⟨true, false, true, false⟩
        ⟨"t", 0, "0.0", ProcResult.completed 0 "done" "",
          ProcResult.completed 1 "bad" ""⟩).result.passed
      = (run_script (validateScriptPath "dir" ⟨true, false, true, false⟩)
          (validateScriptExists ⟨true, false, true, false⟩) 60
          (ProcResult.completed 1 "bad" "")).1 :=
  C7_validator_runs_with_fixed_timeout "dir"
    { name := "s", description := "d", timeout := 300 }
    ⟨true, false, true, false⟩
    ⟨"t", 0, "0.0", ProcResult.completed 0 "done" "",
      ProcResult.completed 1 "bad" ""⟩ 7 (by decide) (by decide)

/-- Claim C3: for every ordered sequence of results, the process exit
code is 0 iff every result passed (0 for the empty sequence), under
either accepted output format. -/
theorem C3_exit_zero_iff_all_passed (fmt : OutputFormat)
    (results : List ScenarioResult) :
    (mainExitCode fmt results = 0 ↔ ∀ r ∈ results, r.passed = true) := by
  simp only [mainExitCode]
  by_cases h : results.any (fun r => !r.passed) = true
  · rw [if_pos h]
    simp only [List.any_eq_true, Bool.not_eq_true'] at h
    obtain ⟨r, hr, hp⟩ := h
    constructor
    · intro h10
      exact absurd h10 (by decide)
    · intro hall
      rw [hall r hr] at hp
      exact absurd hp (by decide)
  · rw [if_neg h]
    simp only [List.any_eq_true, Bool.not_eq_true', not_exists] at h
    constructor
    · intro _ r hr
      have := h r
      rw [not_and] at this
      have hh := this hr
      revert hh
      cases hrp : r.passed <;> simp
    · intro _
      rfl

/-- Claim C4: the Process Executor always returns a (succeeded, output)
pair; `succeeded` is true iff the script existed and its process exited
with code zero; on completion the output is stdout followed by stderr;
a missing script returns a descriptive message without consulting the
process at all; a timeout names the configured timeout; any other
spawn error folds the exception text into the output. -/
theorem C4_executor_contract (path : String) (ex : Bool) (t : Nat)
    (proc : ProcResult) :
    ((run_script path ex t proc).1 = true ↔
        (ex = true ∧ ∃ out err, proc = ProcResult.completed 0 out err)) ∧
    (ex = false →
        run_script path ex t proc = (false, "Script not found: " ++ path) ∧
        ∀ proc', run_script path ex t proc' = run_script path ex t proc) ∧
    (∀ c out err, ex = true → proc = ProcResult.completed c out err →
        (run_script path ex t proc).2 = out ++ err) ∧
    (ex = true → proc = ProcResult.timedOut →
        run_script path ex t proc
          = (false, "Timeout after " ++ toString t ++ " seconds")) ∧
    (∀ e, ex = true → proc = ProcResult.spawnError e →
        run_script path ex t proc = (false, "Error running script: " ++ e) ∧
        substrOccurs e (run_script path ex t proc).2) := by
  refine ⟨?_, ?_, ?_, ?_, ?_⟩
  · cases ex <;> cases proc <;> simp [run_script]
  · intro hex
    subst hex
    exact ⟨by simp [run_script], fun proc' => by simp [run_script]⟩
  · intro c out err hex hp
    subst hex hp
    simp [run_script]
  · intro hex hp
    subst hex hp
    simp [run_script]
  · intro e hex hp
    subst hex hp
    refine ⟨by simp [run_script], ⟨"Error running script: ", "", ?_⟩⟩
    simp [run_script]

/-- Witness for C4: at a concrete timeout the executor reports failure
with the configured timeout named in the output. -/
theorem C4_witness :
    run_script "p" true 5 ProcResult.timedOut
      = (false, "Timeout after " ++ toString 5 ++ " seconds") :=
  (C4_executor_contract "p" true 5 ProcResult.timedOut).2.2.2.1 rfl rfl

/-- Claim C8 counterexample: a concrete failing run whose
`error_message` embeds the complete captured setup output — nothing is
truncated away, so the output is not included "in truncated form"
(no proper-prefix-only inclusion). -/
theorem C8_counterexample :
    (run_scenario "d" { name := "n", description := "", timeout := 5 }
        ⟨true, false, false, false⟩
        ⟨"t", 0, "0.0", ProcResult.completed 1 "ABCDEFGH" "",
          ProcResult.timedOut⟩).result.passed = false ∧
    (run_scenario "d" { name := "n", description := "", timeout := 5 }
        ⟨true, false, false, false⟩
        ⟨"t", 0, "0.0", ProcResult.completed 1 "ABCDEFGH" "",
          ProcResult.timedOut⟩).result.error_message
      = some "Scenario execution failed: ABCDEFGH" ∧
    ¬ includesOnlyTruncated "Scenario execution failed: ABCDEFGH" "ABCDEFGH" := by
  refine ⟨by decide, by decide, ?_⟩
  intro htr
  exact htr.2 ⟨"Scenario execution failed: ", "", by decide⟩

/-- Claim C8 (amended): on setup failure, `error_message` contains
"Scenario execution failed" and includes the setup phase's captured
output in full. -/
theorem C8_error_message_contains_full_output (dir : String)
    (cfg : ScenarioConfig) (fs : ScenarioFS) (env : RunEnv)
    (h : (run_script (setupScriptPath dir fs) (setupScriptExists fs)
        cfg.timeout env.setupProc).1 = false) :
    ∃ m, (run_scenario dir cfg fs env).result.error_message = some m ∧
      substrOccurs "Scenario execution failed" m ∧
      substrOccurs (run_script (setupScriptPath dir fs) (setupScriptExists fs)
        cfg.timeout env.setupProc).2 m := by
  rw [run_scenario_fail_eq dir cfg fs env h]
  refine ⟨_, rfl, ?_, ?_⟩
  · refine ⟨"", ": " ++ (run_script (setupScriptPath dir fs) (setupScriptExists fs)
      cfg.timeout env.setupProc).2, ?_⟩
    rw [String.empty_append, ← String.append_assoc]
    congr 1
  · refine ⟨"Scenario execution failed: ", "", ?_⟩
    rw [String.append_empty]

/-- Witness for C8: a concrete failing run exercising the amended
statement. -/
theorem C8_witness :
    ∃ m, (run_scenario "d" { name := "n", description := "", timeout := 5 }
        ⟨true, false, false, false⟩
        ⟨"t", 0, "0.0", ProcResult.completed 1 "oops" "",
          ProcResult.timedOut⟩).result.error_message = some m ∧
      substrOccurs "Scenario execution failed" m ∧
      substrOccurs (run_script (setupScriptPath "d" ⟨true, false, false, false⟩)
        (setupScriptExists ⟨true, false, false, false⟩) 5
        (ProcResult.completed 1 "oops" "")).2 m :=
  C8_error_message_contains_full_output "d"
    { name := "n", description := "", timeout := 5 }
    ⟨true, false, false, false⟩
    ⟨"t", 0, "0.0", ProcResult.completed 1 "oops" "", ProcResult.timedOut⟩
    (by decide)

/-- Claim C6 counterexample: a declaration that lacks the timeout field
is not rejected — the loader produces a descriptor with the 300-second
default, so "missing timeout is a fatal ConfigError" is false. -/
theorem C6_counterexample :
    ScenarioConfig.from_yaml (some ⟨some "ok", some "d", none, none, []⟩)
      = Except.ok { name := "ok", description := "d", timeout := 300, tags := none } := by
  rfl

/-- Claim C6 (amended): loading fails when the declaration is not
parseable as a mapping, carries an unexpected key, or lacks `name` or
`description`; the timeout field is optional and defaults to 300; and a
loader failure aborts the run for that scenario (uncaught, never a
silent skip). -/
theorem C6_loader_rejects_malformed (doc : Option YamlFields) :
    (doc = none →
        ScenarioConfig.from_yaml doc = Except.error ConfigError.unparseable) ∧
    (∀ d, doc = some d → d.extra = [] → d.name = none →
        ScenarioConfig.from_yaml doc
          = Except.error (ConfigError.missingField "name")) ∧
    (∀ d n, doc = some d → d.extra = [] → d.name = some n →
        d.description = none →
        ScenarioConfig.from_yaml doc
          = Except.error (ConfigError.missingField "description")) ∧
    (∀ d k ks, doc = some d → d.extra = k :: ks →
        ScenarioConfig.from_yaml doc
          = Except.error (ConfigError.unexpectedField k)) ∧
    (∀ d n ds, doc = some d → d.extra = [] → d.name = some n →
        d.description = some ds →
        ScenarioConfig.from_yaml doc
          = Except.ok ⟨n, ds, d.timeout.getD 300, d.tags.getD none⟩) ∧
    (∀ e dd s fs env fmt paths, ScenarioConfig.from_yaml doc = Except.error e →
        find_scenarios dd s = Except.ok paths →
        mainModel dd s doc fs env fmt = MainResult.configCrash e ∧
        (mainModel dd s doc fs env fmt).exitCode = 1 ∧
        (mainModel dd s doc fs env fmt).scenariosRun = []) := by
  refine ⟨?_, ?_, ?_, ?_, ?_, ?_⟩
  · intro h
    subst h
    rfl
  · intro d hd hx hn
    subst hd
    simp [ScenarioConfig.from_yaml, hx, hn]
  · intro d n hd hx hn hds
    subst hd
    simp [ScenarioConfig.from_yaml, hx, hn, hds]
  · intro d k ks hd hx
    subst hd
    simp [ScenarioConfig.from_yaml, hx]
  · intro d n ds hd hx hn hds
    subst hd
    simp [ScenarioConfig.from_yaml, hx, hn, hds]
  · intro e dd s fs env fmt paths herr hfind
    have hm : mainModel dd s doc fs env fmt = MainResult.configCrash e := by
      simp [mainModel, hfind, herr]
    exact ⟨hm, by rw [hm]; rfl, by rw [hm]; rfl⟩

/-- Witness for C6: a mapping with `name` and `description` but no
timeout key loads successfully with the 300-second default. -/
theorem C6_witness :
    ScenarioConfig.from_yaml (some ⟨some "w", some "x", none, none, []⟩)
      = Except.ok { name := "w", description := "x", timeout := 300, tags := none } :=
  (C6_loader_rejects_malformed (some ⟨some "w", some "x", none, none, []⟩)).2.2.2.2.1
    ⟨some "w", some "x", none, none, []⟩ "w" "x" rfl rfl rfl rfl

/-- Claim C9: the Scenario Locator terminates the run with exit code 1
and runs nothing, both when the requested directory is absent (the
error names the searched base directory and lists exactly the sibling
directories holding a `scenario.yaml`) and when the directory exists
without a declaration file (the error names the expected path). -/
theorem C9_locator_failures_are_fatal (d : ScenariosDir) (s : String)
    (doc : Option YamlFields) (fs : ScenarioFS) (env : RunEnv)
    (fmt : OutputFormat) :
    (∀ n, n ∈ availableScenarios d ↔
        ∃ en ∈ d.entries, en.name = n ∧ en.isDir = true ∧
          en.hasScenarioYaml = true) ∧
    (d.entries.find? (fun e => e.name == s) = none →
        find_scenarios d s
          = Except.error (FindError.notFound d.path (availableScenarios d)) ∧
        mainModel d s doc fs env fmt
          = MainResult.discoveryExit (FindError.notFound d.path (availableScenarios d)) ∧
        (mainModel d s doc fs env fmt).exitCode = 1 ∧
        (mainModel d s doc fs env fmt).scenariosRun = []) ∧
    (∀ en, d.entries.find? (fun e => e.name == s) = some en →
        en.hasScenarioYaml = false →
        find_scenarios d s
          = Except.error (FindError.missingYaml (d.path ++ "/" ++ s ++ "/scenario.yaml")) ∧
        mainModel d s doc fs env fmt
          = MainResult.discoveryExit
              (FindError.missingYaml (d.path ++ "/" ++ s ++ "/scenario.yaml")) ∧
        (mainModel d s doc fs env fmt).exitCode = 1 ∧
        (mainModel d s doc fs env fmt).scenariosRun = []) := by
  refine ⟨?_, ?_, ?_⟩
  · intro n
    simp only [availableScenarios, List.mem_map, List.mem_filter,
      Bool.and_eq_true]
    constructor
    · rintro ⟨en, ⟨hmem, hdir, hyaml⟩, hname⟩
      exact ⟨en, hmem, hname, hdir, hyaml⟩
    · rintro ⟨en, hmem, hname, hdir, hyaml⟩
      exact ⟨en, ⟨hmem, hdir, hyaml⟩, hname⟩
  · intro h
    have hf : find_scenarios d s
        = Except.error (FindError.notFound d.path (availableScenarios d)) := by
      simp [find_scenarios, h]
    have hm : mainModel d s doc fs env fmt
        = MainResult.discoveryExit (FindError.notFound d.path (availableScenarios d)) := by
      simp [mainModel, hf]
    exact ⟨hf, hm, by rw [hm]; rfl, by rw [hm]; rfl⟩
  · intro en hen hyaml
    have hf : find_scenarios d s
        = Except.error (FindError.missingYaml (d.path ++ "/" ++ s ++ "/scenario.yaml")) := by
      simp [find_scenarios, hen, hyaml]
    have hm : mainModel d s doc fs env fmt
        = MainResult.discoveryExit
            (FindError.missingYaml (d.path ++ "/" ++ s ++ "/scenario.yaml")) := by
      simp [mainModel, hf]
    exact ⟨hf, hm, by rw [hm]; rfl, by rw [hm]; rfl⟩

/-- Witness for C9: against a base directory with one valid scenario
`a` and one invalid directory `b`, requesting `missing` reports the
search location and the available list `[a]`, exits 1, and runs
nothing. -/
theorem C9_witness :
    find_scenarios ⟨"base", [⟨"a", true, true⟩, ⟨"b", true, false⟩]⟩ "missing"
      = Except.error (FindError.notFound "base" ["a"]) ∧
    mainModel ⟨"base", [⟨"a", true, true⟩, ⟨"b", true, false⟩]⟩ "missing" none
        ⟨false, false, false, false⟩
        ⟨"t", 0, "0.0", ProcResult.timedOut, ProcResult.timedOut⟩
        OutputFormat.table
      = MainResult.discoveryExit (FindError.notFound "base" ["a"]) ∧
    (mainModel ⟨"base", [⟨"a", true, true⟩, ⟨"b", true, false⟩]⟩ "missing" none
        ⟨false, false, false, false⟩
        ⟨"t", 0, "0.0", ProcResult.timedOut, ProcResult.timedOut⟩
        OutputFormat.table).exitCode = 1 ∧
    (mainModel ⟨"base", [⟨"a", true, true⟩, ⟨"b", true, false⟩]⟩ "missing" none
        ⟨false, false, false, false⟩
        ⟨"t", 0, "0.0", ProcResult.timedOut, ProcResult.timedOut⟩
        OutputFormat.table).scenariosRun = [] :=
  (C9_locator_failures_are_fatal ⟨"base", [⟨"a", true, true⟩, ⟨"b", true, false⟩]⟩
    "missing" none ⟨false, false, false, false⟩
    ⟨"t", 0, "0.0", ProcResult.timedOut, ProcResult.timedOut⟩
    OutputFormat.table).2.1 (by decide)

/-- Claim C10: a scenario directory with a valid declaration but
neither setup-script candidate is not a discovery error: `run_script`
fails with "Script not found" naming the `scenario.sh` fallback, the
scenario ends Failed with that message inside `error_message`, the
transcript is still written, and the run completes reporting with exit
code 1. -/
theorem C10_missing_setup_script_fails_gracefully (d : ScenariosDir)
    (s p : String) (doc : Option YamlFields) (cfg : ScenarioConfig)
    (fs : ScenarioFS) (env : RunEnv) (fmt : OutputFormat)
    (hfind : find_scenarios d s = Except.ok [p])
    (hcfg : ScenarioConfig.from_yaml doc = Except.ok cfg)
    (hpy : fs.scenarioPy = false) (hsh : fs.scenarioSh = false) :
    run_script (setupScriptPath p fs) (setupScriptExists fs) cfg.timeout
        env.setupProc
      = (false, "Script not found: " ++ (p ++ "/scenario.sh")) ∧
    (run_scenario p cfg fs env).result.passed = false ∧
    (run_scenario p cfg fs env).result.error_message
      = some ("Scenario execution failed: "
          ++ ("Script not found: " ++ (p ++ "/scenario.sh"))) ∧
    (run_scenario p cfg fs env).transcriptPath = p ++ "/latest-run.txt" ∧
    (run_scenario p cfg fs env).transcript ≠ "" ∧
    mainModel d s doc fs env fmt
      = MainResult.completed [run_scenario p cfg fs env] 1 ∧
    (mainModel d s doc fs env fmt).exitCode = 1 := by
  have hrs : run_script (setupScriptPath p fs) (setupScriptExists fs)
      cfg.timeout env.setupProc
      = (false, "Script not found: " ++ (p ++ "/scenario.sh")) := by
    simp [run_script, setupScriptPath, setupScriptExists, hpy, hsh]
  have hfail : (run_script (setupScriptPath p fs) (setupScriptExists fs)
      cfg.timeout env.setupProc).1 = false := by
    rw [hrs]
  have hpass : (run_scenario p cfg fs env).result.passed = false := by
    rw [run_scenario_fail_eq p cfg fs env hfail]
  have hmain : mainModel d s doc fs env fmt
      = MainResult.completed [run_scenario p cfg fs env] 1 := by
    simp [mainModel, hfind, hcfg, mainExitCode, hpass]
  refine ⟨hrs, hpass, ?_, ?_, ?_, hmain, by rw [hmain]; rfl⟩
  · rw [run_scenario_fail_eq p cfg fs env hfail, hrs]
  · rw [run_scenario_fail_eq p cfg fs env hfail]
  · rw [run_scenario_fail_eq p cfg fs env hfail]
    exact joinLines_ne_empty _ _ (scenario_banner_ne_empty cfg.name)

/-- Witness for C10: a concrete valid declaration in a located
directory with no `scenario.py` or `scenario.sh`. -/
theorem C10_witness :
    run_script (setupScriptPath "base/sc" ⟨false, false, false, false⟩)
        (setupScriptExists ⟨false, false, false, false⟩) 5
        ProcResult.timedOut
      = (false, "Script not found: " ++ ("base/sc" ++ "/scenario.sh")) ∧
    (run_scenario "base/sc" { name := "n", description := "d", timeout := 5 }
        ⟨false, false, false, false⟩
        ⟨"t", 0, "0.0", ProcResult.timedOut, ProcResult.timedOut⟩).result.passed
      = false ∧
    (run_scenario "base/sc" { name := "n", description := "d", timeout := 5 }
        ⟨false, false, false, false⟩
        ⟨"t", 0, "0.0", ProcResult.timedOut, ProcResult.timedOut⟩).result.error_message
      = some ("Scenario execution failed: "
          ++ ("Script not found: " ++ ("base/sc" ++ "/scenario.sh"))) ∧
    (run_scenario "base/sc" { name := "n", description := "d", timeout := 5 }
        ⟨false, false, false, false⟩
        ⟨"t", 0, "0.0", ProcResult.timedOut, ProcResult.timedOut⟩).transcriptPath
      = "base/sc" ++ "/latest-run.txt" ∧
    (run_scenario "base/sc" { name := "n", description := "d", timeout := 5 }
        ⟨false, false, false, false⟩
        ⟨"t", 0, "0.0", ProcResult.timedOut, ProcResult.timedOut⟩).transcript
      ≠ "" ∧
    mainModel ⟨"base", [⟨"sc", true, true⟩]⟩ "sc"
        (some ⟨some "n", some "d", some 5, none, []⟩)
        ⟨false, false, false, false⟩
        ⟨"t", 0, "0.0", ProcResult.timedOut, ProcResult.timedOut⟩
        OutputFormat.table
      = MainResult.completed
          [run_scenario "base/sc" { name := "n", description := "d", timeout := 5 }
            ⟨false, false, false, false⟩
            ⟨"t", 0, "0.0", ProcResult.timedOut, ProcResult.timedOut⟩] 1 ∧
    (mainModel ⟨"base", [⟨"sc", true, true⟩]⟩ "sc"
        (some ⟨some "n", some "d", some 5, none, []⟩)
        ⟨false, false, false, false⟩
        ⟨"t", 0, "0.0", ProcResult.timedOut, ProcResult.timedOut⟩
        OutputFormat.table).exitCode = 1 :=
  C10_missing_setup_script_fails_gracefully ⟨"base", [⟨"sc", true, true⟩]⟩
    "sc" "base/sc"
    (some ⟨some "n", some "d", some 5, none, []⟩)
    { name := "n", description := "d", timeout := 5 }
    ⟨false, false, false, false⟩
    ⟨"t", 0, "0.0", ProcResult.timedOut, ProcResult.timedOut⟩
    OutputFormat.table rfl rfl rfl rfl
